import Mathlib

/-!
# infyfix: contact handlers of `src/api/index.js`

A shallow embedding of the four request handlers that touch the contact
collection (`createContactHandler`, `updateContactStatusHandler`,
`deleteContactHandler` and the `GET /admin/contact` route), together with
the parts of the schema layer, the document collection and the mail
transport that they call.

Modelling decisions.

* The collection is the list of its documents in insertion order.  The
  identifier of a new document is produced outside the handler; it is an
  argument of `Contact.create`, and the collection rejects an identifier
  that is already present (unique index on the identifier).
* A parsed form body is a record of optional text fields: a field is
  either absent or a string.
* An identifier is a 96-bit number; `castObjectId` reads it from its
  24-digit hexadecimal text and rejects every other text.
* `updateContactStatusHandler` and `deleteContactHandler` pass the filter
  `{_id: id}` to the collection.  For an `id` absent from the body the
  filter is `{_id: undefined}`, which matches no document.
* `sendMail` is an `async` function that the submit handler calls and does
  not await: the call is recorded as an attempt, and its settled promise
  is kept aside in `floating`, where nothing reads it.
-/

namespace Infyfix

/-! ## Data model -/

/-- Identifier of a stored document. -/
abbrev ObjectId := Nat

/-- A document of the `Contact` model (`contactSchema`). -/
structure Contact where
  id : ObjectId
  name : String
  email : String
  phone : String
  subject : String
  message : String
  status : String
deriving DecidableEq, Repr

/-- The contact collection, in insertion order. -/
abbrev Store := List Contact

/-- The fields of a parsed form body that some handler reads, and `status`,
which none of them reads. -/
structure ReqBody where
  name : Option String := none
  email : Option String := none
  phone : Option String := none
  subject : Option String := none
  message : Option String := none
  status : Option String := none
  id : Option String := none
deriving DecidableEq, Repr

/-- The environment variables read by the mail code. -/
structure ProcessEnv where
  ADMIN_EMAIL : Option String := none
  MAIL_FROM_NAME : Option String := none
  MAIL_FROM_ADDRESS : Option String := none
deriving DecidableEq, Repr

/-- What a handler does with `res`. -/
inductive Response where
  | redirect (url : String)
  | send (text : String)
  | render (view : String) (contacts : List Contact)
deriving DecidableEq, Repr

/-- The message object handed to `transport.sendMail`. -/
structure Mail where
  sender : String
  recipient : Option String
  subject : String
  html : String
deriving DecidableEq, Repr

/-- Failures of the collection layer. -/
inductive StoreError where
  | validation (paths : List String)
  | castError (path : String) (value : String)
  | duplicateKey (id : ObjectId)
deriving DecidableEq, Repr

/-- A settled promise of `sendMail`. -/
inductive Settled where
  | fulfilled
  | rejected (reason : String)
deriving DecidableEq, Repr

/-- The outcome of one request: the response, the collection afterwards, the
messages handed to the transport, and the promises nobody awaited. -/
structure Outcome where
  res : Response
  db : Store
  outbox : List Mail
  floating : List Settled
deriving DecidableEq, Repr

/-! ## Schema layer and collection -/

/-- A `required: true` string path: the value is present and not empty. -/
def required (v : Option String) : Bool :=
  match v with
  | none => false
  | some s => s.length != 0

/-- The paths of `contactSchema` whose `required` validator fails. -/
def failedPaths (name email phone subject message : Option String) : List String :=
  (if required name then [] else ["name"]) ++
  (if required email then [] else ["email"]) ++
  (if required phone then [] else ["phone"]) ++
  (if required subject then [] else ["subject"]) ++
  (if required message then [] else ["message"])

/-- The identifiers present in the collection. -/
def ids (db : Store) : List ObjectId := db.map Contact.id

/-- The call `Contact.create({name, email, phone, subject, message})`:
`status` takes its schema default, the document is validated, and it is
inserted at the end of the collection under the identifier `newId`. -/
def Contact.create (newId : ObjectId) (db : Store)
    (name email phone subject message : Option String) :
    Except StoreError (Contact × Store) :=
  match name, email, phone, subject, message with
  | some n, some e, some p, some s, some m =>
    if failedPaths name email phone subject message = [] then
      if newId ∈ ids db then
        Except.error (StoreError.duplicateKey newId)
      else
        let doc : Contact :=
          { id := newId, name := n, email := e, phone := p, subject := s,
            message := m, status := "pending" }
        Except.ok (doc, db ++ [doc])
    else
      Except.error (StoreError.validation (failedPaths name email phone subject message))
  | _, _, _, _, _ =>
    Except.error (StoreError.validation (failedPaths name email phone subject message))

/-- The call `Contact.find({})`: every document. -/
def Contact.find (db : Store) : List Contact := db

/-- Value of one hexadecimal digit. -/
def hexDigit (c : Char) : Option Nat :=
  if 48 ≤ c.toNat ∧ c.toNat ≤ 57 then some (c.toNat - 48)
  else if 97 ≤ c.toNat ∧ c.toNat ≤ 102 then some (c.toNat - 87)
  else if 65 ≤ c.toNat ∧ c.toNat ≤ 70 then some (c.toNat - 55)
  else none

/-- Reads a run of hexadecimal digits, most significant first. -/
def hexValue : List Char → Nat → Option Nat
  | [], acc => some acc
  | c :: cs, acc =>
    match hexDigit c with
    | none => none
    | some d => hexValue cs (acc * 16 + d)

/-- Cast of a text to an identifier: exactly 24 hexadecimal digits. -/
def castObjectId (s : String) : Option ObjectId :=
  if s.data.length = 24 then hexValue s.data 0 else none

/-- A query filter on the identifier, after casting. -/
inductive Filter where
  | byId (id : ObjectId)
  | nothing
deriving DecidableEq, Repr

/-- Whether a document satisfies a filter. -/
def Filter.matches (f : Filter) (c : Contact) : Bool :=
  match f with
  | Filter.byId i => c.id == i
  | Filter.nothing => false

/-- The filter `{_id: id}` of `findByIdAndUpdate` and `findByIdAndDelete`,
cast against the schema. -/
def castFilter (id : Option String) : Except StoreError Filter :=
  match id with
  | none => Except.ok Filter.nothing
  | some s =>
    match castObjectId s with
    | some i => Except.ok (Filter.byId i)
    | none => Except.error (StoreError.castError "_id" s)

/-- Applies `f` to the first document that satisfies the filter. -/
def findOneAndUpdate (flt : Filter) (f : Contact → Contact) : Store → Store
  | [] => []
  | c :: cs => if flt.matches c then f c :: cs else c :: findOneAndUpdate flt f cs

/-- Removes the first document that satisfies the filter. -/
def findOneAndDelete (flt : Filter) : Store → Store
  | [] => []
  | c :: cs => if flt.matches c then cs else c :: findOneAndDelete flt cs

/-- The update document `{status: "completed"}`. -/
def setCompleted (c : Contact) : Contact := { c with status := "completed" }

/-- The call `Contact.findByIdAndUpdate(id, {status: "completed"})`. -/
def Contact.findByIdAndUpdate (db : Store) (id : Option String) :
    Except StoreError Store :=
  match castFilter id with
  | Except.error e => Except.error e
  | Except.ok flt => Except.ok (findOneAndUpdate flt setCompleted db)

/-- The call `Contact.findByIdAndDelete(id)`. -/
def Contact.findByIdAndDelete (db : Store) (id : Option String) :
    Except StoreError Store :=
  match castFilter id with
  | Except.error e => Except.error e
  | Except.ok flt => Except.ok (findOneAndDelete flt db)

/-! ## Mail -/

/-- A value of `process.env` inside a template literal. -/
def envText (v : Option String) : String :=
  match v with
  | some s => s
  | none => "undefined"

/-- The function `sendMail(to, subject, text)`: the message it hands to the
transport. -/
def sendMail (env : ProcessEnv) (recipient : Option String) (subject text : String) : Mail :=
  { sender := envText env.MAIL_FROM_NAME ++ " <" ++ envText env.MAIL_FROM_ADDRESS ++ ">",
    recipient := recipient, subject := subject, html := text }

/-! ## Request handlers -/

/-- The handler of `POST /contact`.  `newId` is the identifier generated for
the new document, `p1` and `p2` are the ways the two `sendMail` promises
settle. -/
def createContactHandler (env : ProcessEnv) (newId : ObjectId) (p1 p2 : Settled)
    (db : Store) (body : ReqBody) : Outcome :=
  match Contact.create newId db body.name body.email body.phone body.subject body.message with
  | Except.ok (createdContact, db1) =>
    let toAdmin := sendMail env env.ADMIN_EMAIL
      ("New contact request: " ++ createdContact.subject)
      ("You have received a new contact from <strong>" ++ createdContact.name ++
        "</strong> with email <strong>" ++ createdContact.email ++ "</strong><br /> " ++
        createdContact.message)
    let toUser := sendMail env (some createdContact.email)
      "Contact request received successfully"
      "Thank you for contacting us. We will get back to you soon."
    { res := Response.redirect "/contact?success=true", db := db1,
      outbox := [toAdmin, toUser], floating := [p1, p2] }
  | Except.error _ =>
    { res := Response.send "Something went wrong", db := db, outbox := [], floating := [] }

/-- The handler of `POST /admin/contact/update`. -/
def updateContactStatusHandler (db : Store)
    (body : ReqBody) : Outcome :=
  match Contact.findByIdAndUpdate db body.id with
  | Except.ok db1 =>
    { res := Response.redirect "/admin/contact", db := db1, outbox := [], floating := [] }
  | Except.error _ =>
    { res := Response.send "Something went wrong", db := db, outbox := [], floating := [] }

/-- The handler of `POST /admin/contact/delete`. -/
def deleteContactHandler (db : Store)
    (body : ReqBody) : Outcome :=
  match Contact.findByIdAndDelete db body.id with
  | Except.ok db1 =>
    { res := Response.redirect "/admin/contact", db := db1, outbox := [], floating := [] }
  | Except.error _ =>
    { res := Response.send "Something went wrong", db := db, outbox := [], floating := [] }

/-- The handler of `GET /admin/contact`. -/
def adminContactHandler (db : Store) : Outcome :=
  { res := Response.render "contactAdmin" (Contact.find db), db := db,
    outbox := [], floating := [] }

/-- A request to one of the four routes, with what the environment
contributes to its handling. -/
inductive Request where
  | submit (newId : ObjectId) (p1 p2 : Settled) (body : ReqBody)
  | update (body : ReqBody)
  | delete (body : ReqBody)
  | list
deriving DecidableEq, Repr

/-- Dispatch of a request to its handler. -/
def handle (env : ProcessEnv) (db : Store) :
    Request → Outcome
  | Request.submit newId p1 p2 body => createContactHandler env newId p1 p2 db body
  | Request.update body => updateContactStatusHandler db body
  | Request.delete body => deleteContactHandler db body
  | Request.list => adminContactHandler db

/-- The collection states reachable from the empty collection. -/
inductive Reachable (env : ProcessEnv) : Store → Prop where
  | empty : Reachable env []
  | step (db : Store) (req : Request) :
      Reachable env db →
      Reachable env (handle env db req).db

/-! ## Predicates used in the statements -/

/-- No two documents share an identifier. -/
def UniqueIds (db : Store) : Prop := (ids db).Nodup

/-- The five text fields are non-empty and the status is one of the two
values of the lifecycle. -/
def ContactOk (c : Contact) : Prop :=
  c.name ≠ "" ∧ c.email ≠ "" ∧ c.phone ≠ "" ∧ c.subject ≠ "" ∧ c.message ≠ "" ∧
  (c.status = "pending" ∨ c.status = "completed")

/-- The store invariant: every document is `ContactOk`. -/
def StoreOk (db : Store) : Prop := ∀ c ∈ db, ContactOk c

/-- A body field that is present and not the empty text. -/
def NonEmptyField (v : Option String) : Prop := v ≠ none ∧ v ≠ some ""

/-- A body field that is missing or the empty text. -/
def MissingOrEmpty (v : Option String) : Prop := v = none ∨ v = some ""

instance (v : Option String) : Decidable (MissingOrEmpty v) := by
  unfold MissingOrEmpty; infer_instance

/-- A submission whose five fields are all present and non-empty. -/
def ValidSubmission (body : ReqBody) : Prop :=
  NonEmptyField body.name ∧ NonEmptyField body.email ∧ NonEmptyField body.phone ∧
  NonEmptyField body.subject ∧ NonEmptyField body.message

instance (v : Option String) : Decidable (NonEmptyField v) := by
  unfold NonEmptyField; infer_instance

instance (body : ReqBody) : Decidable (ValidSubmission body) := by
  unfold ValidSubmission; infer_instance

instance (db : Store) : Decidable (UniqueIds db) := by
  unfold UniqueIds; infer_instance

instance (c : Contact) : Decidable (ContactOk c) := by
  unfold ContactOk; infer_instance

instance (db : Store) : Decidable (StoreOk db) := by
  unfold StoreOk; infer_instance

/-! ## Schema layer: validation and insertion -/

theorem length_eq_zero_iff (s : String) : s.length = 0 ↔ s = "" := by
  constructor
  · intro h0
    have hd : s.data = [] := List.length_eq_zero.mp h0
    exact String.ext (by simpa using hd)
  · rintro rfl; rfl

theorem required_iff (v : Option String) : required v = true ↔ NonEmptyField v := by
  cases v with
  | none => simp [required, NonEmptyField]
  | some s => simp [required, NonEmptyField, length_eq_zero_iff]

theorem nonEmptyField_iff (v : Option String) :
    NonEmptyField v ↔ ∃ s, v = some s ∧ s ≠ "" := by
  cases v with
  | none => simp [NonEmptyField]
  | some s => simp [NonEmptyField]

theorem failedPaths_eq_nil_iff (name email phone subject message : Option String) :
    failedPaths name email phone subject message = [] ↔
      required name = true ∧ required email = true ∧ required phone = true ∧
      required subject = true ∧ required message = true := by
  unfold failedPaths
  cases required name <;> cases required email <;> cases required phone <;>
    cases required subject <;> cases required message <;> simp

theorem failedPaths_body_iff (body : ReqBody) :
    failedPaths body.name body.email body.phone body.subject body.message = [] ↔
      ValidSubmission body := by
  rw [failedPaths_eq_nil_iff]
  simp only [required_iff, ValidSubmission]

/-- What `Contact.create` returns when it succeeds. -/
theorem create_ok_inv {newId : ObjectId} {db : Store}
    {name email phone subject message : Option String} {doc : Contact} {db1 : Store}
    (h : Contact.create newId db name email phone subject message = Except.ok (doc, db1)) :
    db1 = db ++ [doc] ∧ doc.id = newId ∧ newId ∉ ids db ∧ doc.status = "pending" ∧
      name = some doc.name ∧ email = some doc.email ∧ phone = some doc.phone ∧
      subject = some doc.subject ∧ message = some doc.message ∧
      failedPaths name email phone subject message = [] := by
  unfold Contact.create at h
  split at h
  · split at h
    · split at h
      · cases h
      · injection h with h
        injection h with h1 h2
        subst h1
        subst h2
        simp_all
    · cases h
  · cases h

/-- A valid submission under a fresh identifier is inserted. -/
theorem create_ok_of_valid (newId : ObjectId) (db : Store) (body : ReqBody)
    (hv : ValidSubmission body) (hfresh : newId ∉ ids db) :
    ∃ doc, Contact.create newId db body.name body.email body.phone body.subject body.message
        = Except.ok (doc, db ++ [doc]) ∧
      doc.id = newId ∧ doc.status = "pending" ∧ some doc.name = body.name ∧
      some doc.email = body.email ∧ some doc.phone = body.phone ∧
      some doc.subject = body.subject ∧ some doc.message = body.message := by
  have hf := (failedPaths_body_iff body).mpr hv
  obtain ⟨h1, h2, h3, h4, h5⟩ := hv
  obtain ⟨n, hn, -⟩ := (nonEmptyField_iff _).mp h1
  obtain ⟨e, he, -⟩ := (nonEmptyField_iff _).mp h2
  obtain ⟨p, hp, -⟩ := (nonEmptyField_iff _).mp h3
  obtain ⟨s, hs, -⟩ := (nonEmptyField_iff _).mp h4
  obtain ⟨m, hm, -⟩ := (nonEmptyField_iff _).mp h5
  rw [hn, he, hp, hs, hm] at hf ⊢
  refine ⟨{ id := newId, name := n, email := e, phone := p, subject := s,
            message := m, status := "pending" }, ?_, rfl, rfl, rfl, rfl, rfl, rfl, rfl⟩
  simp [Contact.create, hf, hfresh]

/-- An invalid submission is rejected by validation. -/
theorem create_error_of_invalid (newId : ObjectId) (db : Store) (body : ReqBody)
    (hv : ¬ ValidSubmission body) :
    ∃ err, Contact.create newId db body.name body.email body.phone body.subject body.message
        = Except.error err := by
  have hf : ¬ failedPaths body.name body.email body.phone body.subject body.message = [] :=
    fun h => hv ((failedPaths_body_iff body).mp h)
  unfold Contact.create
  split
  · rw [if_neg hf]; exact ⟨_, rfl⟩
  · exact ⟨_, rfl⟩

/-! ## Collection: update and delete of the first match -/

theorem setCompleted_id (c : Contact) : (setCompleted c).id = c.id := rfl

theorem setCompleted_status (c : Contact) : (setCompleted c).status = "completed" := rfl

theorem setCompleted_idem (c : Contact) : setCompleted (setCompleted c) = setCompleted c := rfl

theorem matches_setCompleted (flt : Filter) (c : Contact) :
    flt.matches (setCompleted c) = flt.matches c := by
  cases flt <;> rfl

theorem matches_byId (i : ObjectId) (c : Contact) :
    (Filter.byId i).matches c = true ↔ c.id = i := by
  simp [Filter.matches]

/-- With unique identifiers, two stored documents with one identifier are one
document. -/
theorem eq_of_id_eq {db : Store} (hu : UniqueIds db) {c d : Contact}
    (hc : c ∈ db) (hd : d ∈ db) (h : c.id = d.id) : c = d :=
  List.inj_on_of_nodup_map hu hc hd h

theorem findOneAndUpdate_length (flt : Filter) (f : Contact → Contact) (db : Store) :
    (findOneAndUpdate flt f db).length = db.length := by
  induction db with
  | nil => rfl
  | cons c cs ih =>
    unfold findOneAndUpdate
    split <;> simp [ih]

theorem ids_findOneAndUpdate (flt : Filter) (db : Store) :
    ids (findOneAndUpdate flt setCompleted db) = ids db := by
  induction db with
  | nil => rfl
  | cons c cs ih =>
    unfold findOneAndUpdate
    unfold ids at ih ⊢
    split <;> simp [ih, setCompleted_id]

theorem findOneAndUpdate_of_no_match (flt : Filter) (f : Contact → Contact) (db : Store)
    (h : ∀ c ∈ db, flt.matches c = false) : findOneAndUpdate flt f db = db := by
  induction db with
  | nil => rfl
  | cons c cs ih =>
    unfold findOneAndUpdate
    rw [if_neg (by simp [h c (List.mem_cons_self c cs)])]
    rw [ih (fun d hd => h d (List.mem_cons_of_mem c hd))]

theorem findOneAndUpdate_idem (flt : Filter) (db : Store) :
    findOneAndUpdate flt setCompleted (findOneAndUpdate flt setCompleted db) =
      findOneAndUpdate flt setCompleted db := by
  induction db with
  | nil => rfl
  | cons c cs ih =>
    by_cases hm : flt.matches c = true
    · have h1 : findOneAndUpdate flt setCompleted (c :: cs) = setCompleted c :: cs := by
        simp [findOneAndUpdate, hm]
      rw [h1]
      simp [findOneAndUpdate, matches_setCompleted, hm, setCompleted_idem]
    · have h1 : findOneAndUpdate flt setCompleted (c :: cs) =
          c :: findOneAndUpdate flt setCompleted cs := by
        simp [findOneAndUpdate, hm]
      rw [h1]
      conv_lhs => unfold findOneAndUpdate
      rw [if_neg hm, ih]

/-- Every document after an update comes from a document before it, with the
same identifier, either untouched or with its status set. -/
theorem mem_findOneAndUpdate (flt : Filter) (db : Store) (d : Contact)
    (hd : d ∈ findOneAndUpdate flt setCompleted db) :
    ∃ c ∈ db, d.id = c.id ∧ (d = c ∨ d = setCompleted c) := by
  induction db with
  | nil => simp [findOneAndUpdate] at hd
  | cons c cs ih =>
    unfold findOneAndUpdate at hd
    split at hd
    · rcases List.mem_cons.mp hd with h | h
      · exact ⟨c, List.mem_cons_self c cs, by rw [h]; rfl, Or.inr h⟩
      · exact ⟨d, List.mem_cons_of_mem c h, rfl, Or.inl rfl⟩
    · rcases List.mem_cons.mp hd with h | h
      · exact ⟨c, List.mem_cons_self c cs, by rw [h], Or.inl h⟩
      · obtain ⟨c0, hc0, h1, h2⟩ := ih h
        exact ⟨c0, List.mem_cons_of_mem c hc0, h1, h2⟩

/-- With unique identifiers, updating by identifier rewrites exactly the
documents with that identifier. -/
theorem findOneAndUpdate_byId_eq_map (i : ObjectId) (db : Store) (hu : UniqueIds db) :
    findOneAndUpdate (Filter.byId i) setCompleted db =
      db.map (fun d => if d.id = i then setCompleted d else d) := by
  induction db with
  | nil => rfl
  | cons c cs ih =>
    have hu2 : UniqueIds cs := (List.nodup_cons.mp hu).2
    have hnot : c.id ∉ ids cs := (List.nodup_cons.mp hu).1
    unfold findOneAndUpdate
    by_cases hm : c.id = i
    · rw [if_pos ((matches_byId i c).mpr hm)]
      simp only [List.map_cons, if_pos hm]
      congr 1
      symm
      calc cs.map (fun d => if d.id = i then setCompleted d else d)
          = cs.map (fun d => d) := by
            apply List.map_congr_left
            intro d hd
            have : d.id ≠ i := by
              intro hdi
              exact hnot (by rw [hm, ← hdi]; exact List.mem_map_of_mem Contact.id hd)
            simp [this]
        _ = cs := List.map_id cs
    · rw [if_neg (by rw [matches_byId]; exact hm)]
      simp only [List.map_cons, if_neg hm]
      rw [ih hu2]

theorem findOneAndDelete_sublist (flt : Filter) (db : Store) :
    List.Sublist (findOneAndDelete flt db) db := by
  induction db with
  | nil => exact List.Sublist.slnil
  | cons c cs ih =>
    unfold findOneAndDelete
    split
    · exact List.sublist_cons_self c cs
    · exact List.Sublist.cons₂ c ih

theorem findOneAndDelete_of_no_match (flt : Filter) (db : Store)
    (h : ∀ c ∈ db, flt.matches c = false) : findOneAndDelete flt db = db := by
  induction db with
  | nil => rfl
  | cons c cs ih =>
    unfold findOneAndDelete
    rw [if_neg (by simp [h c (List.mem_cons_self c cs)])]
    rw [ih (fun d hd => h d (List.mem_cons_of_mem c hd))]

theorem findOneAndDelete_length (flt : Filter) (db : Store) (c : Contact)
    (hc : c ∈ db) (hm : flt.matches c = true) :
    (findOneAndDelete flt db).length + 1 = db.length := by
  induction db with
  | nil => simp at hc
  | cons d ds ih =>
    unfold findOneAndDelete
    by_cases hd : flt.matches d = true
    · rw [if_pos hd]; rfl
    · rw [if_neg hd]
      rcases List.mem_cons.mp hc with h | h
      · exact absurd (h ▸ hm) hd
      · simp [ih h]

/-- With unique identifiers, deleting by identifier keeps exactly the
documents with another identifier. -/
theorem findOneAndDelete_byId_eq_filter (i : ObjectId) (db : Store) (hu : UniqueIds db) :
    findOneAndDelete (Filter.byId i) db = db.filter (fun d => decide (d.id ≠ i)) := by
  induction db with
  | nil => rfl
  | cons c cs ih =>
    have hu2 : UniqueIds cs := (List.nodup_cons.mp hu).2
    have hnot : c.id ∉ ids cs := (List.nodup_cons.mp hu).1
    unfold findOneAndDelete
    by_cases hm : c.id = i
    · rw [if_pos ((matches_byId i c).mpr hm)]
      rw [List.filter_cons_of_neg (by simp [hm])]
      symm
      apply List.filter_eq_self.mpr
      intro d hd
      have : d.id ≠ i := by
        intro hdi
        exact hnot (by rw [hm, ← hdi]; exact List.mem_map_of_mem Contact.id hd)
      simp [this]
    · rw [if_neg (by rw [matches_byId]; exact hm)]
      rw [List.filter_cons_of_pos (by simp [hm]), ih hu2]

/-! ## Handlers: what each one does to the collection -/

theorem createContactHandler_ok (env : ProcessEnv) (newId : ObjectId) (p1 p2 : Settled)
    (db : Store) (body : ReqBody) (doc : Contact) (db1 : Store)
    (h : Contact.create newId db body.name body.email body.phone body.subject body.message
      = Except.ok (doc, db1)) :
    createContactHandler env newId p1 p2 db body =
      { res := Response.redirect "/contact?success=true", db := db1,
        outbox :=
          [sendMail env env.ADMIN_EMAIL ("New contact request: " ++ doc.subject)
             ("You have received a new contact from <strong>" ++ doc.name ++
               "</strong> with email <strong>" ++ doc.email ++ "</strong><br /> " ++
               doc.message),
           sendMail env (some doc.email) "Contact request received successfully"
             "Thank you for contacting us. We will get back to you soon."],
        floating := [p1, p2] } := by
  unfold createContactHandler
  rw [h]

theorem createContactHandler_error (env : ProcessEnv) (newId : ObjectId) (p1 p2 : Settled)
    (db : Store) (body : ReqBody) (err : StoreError)
    (h : Contact.create newId db body.name body.email body.phone body.subject body.message
      = Except.error err) :
    createContactHandler env newId p1 p2 db body =
      { res := Response.send "Something went wrong", db := db, outbox := [],
        floating := [] } := by
  unfold createContactHandler
  rw [h]

theorem createContactHandler_db (env : ProcessEnv) (newId : ObjectId) (p1 p2 : Settled)
    (db : Store) (body : ReqBody) :
    (createContactHandler env newId p1 p2 db body).db = db ∨
      ∃ doc, Contact.create newId db body.name body.email body.phone body.subject
          body.message = Except.ok (doc, db ++ [doc]) ∧
        (createContactHandler env newId p1 p2 db body).db = db ++ [doc] := by
  cases h : Contact.create newId db body.name body.email body.phone body.subject body.message with
  | error err =>
    left
    rw [createContactHandler_error env newId p1 p2 db body err h]
  | ok r =>
    obtain ⟨doc, db1⟩ := r
    right
    have h1 := (create_ok_inv h).1
    subst h1
    exact ⟨doc, rfl, by rw [createContactHandler_ok env newId p1 p2 db body doc _ h]⟩

theorem updateContactStatusHandler_cast (db : Store) (body : ReqBody)
    (flt : Filter) (h : castFilter body.id = Except.ok flt) :
    updateContactStatusHandler db body =
      { res := Response.redirect "/admin/contact",
        db := findOneAndUpdate flt setCompleted db, outbox := [], floating := [] } := by
  simp [updateContactStatusHandler, Contact.findByIdAndUpdate, h]

theorem updateContactStatusHandler_error (db : Store) (body : ReqBody)
    (err : StoreError) (h : castFilter body.id = Except.error err) :
    updateContactStatusHandler db body =
      { res := Response.send "Something went wrong", db := db, outbox := [],
        floating := [] } := by
  simp [updateContactStatusHandler, Contact.findByIdAndUpdate, h]

theorem deleteContactHandler_cast (db : Store) (body : ReqBody)
    (flt : Filter) (h : castFilter body.id = Except.ok flt) :
    deleteContactHandler db body =
      { res := Response.redirect "/admin/contact",
        db := findOneAndDelete flt db, outbox := [], floating := [] } := by
  simp [deleteContactHandler, Contact.findByIdAndDelete, h]

theorem deleteContactHandler_error (db : Store) (body : ReqBody)
    (err : StoreError) (h : castFilter body.id = Except.error err) :
    deleteContactHandler db body =
      { res := Response.send "Something went wrong", db := db, outbox := [],
        floating := [] } := by
  simp [deleteContactHandler, Contact.findByIdAndDelete, h]

theorem castFilter_some_ok (s : String) (i : ObjectId)
    (h : castObjectId s = some i) : castFilter (some s) = Except.ok (Filter.byId i) := by
  simp [castFilter, h]

theorem castFilter_some_error (s : String) (h : castObjectId s = none) :
    castFilter (some s) = Except.error (StoreError.castError "_id" s) := by
  simp [castFilter, h]

theorem updateContactStatusHandler_db (db : Store) (body : ReqBody) :
    (updateContactStatusHandler db body).db = db ∨
      ∃ flt, (updateContactStatusHandler db body).db =
        findOneAndUpdate flt setCompleted db := by
  cases h : castFilter body.id with
  | error err => left; rw [updateContactStatusHandler_error db body err h]
  | ok flt => right; exact ⟨flt, by rw [updateContactStatusHandler_cast db body flt h]⟩

theorem deleteContactHandler_db (db : Store) (body : ReqBody) :
    (deleteContactHandler db body).db = db ∨
      ∃ flt, (deleteContactHandler db body).db = findOneAndDelete flt db := by
  cases h : castFilter body.id with
  | error err => left; rw [deleteContactHandler_error db body err h]
  | ok flt => right; exact ⟨flt, by rw [deleteContactHandler_cast db body flt h]⟩

/-! ## Invariants of the collection -/

theorem contactOk_setCompleted {c : Contact} (h : ContactOk c) : ContactOk (setCompleted c) := by
  obtain ⟨h1, h2, h3, h4, h5, -⟩ := h
  exact ⟨h1, h2, h3, h4, h5, Or.inr rfl⟩

theorem contactOk_of_create {newId : ObjectId} {db : Store}
    {name email phone subject message : Option String} {doc : Contact} {db1 : Store}
    (h : Contact.create newId db name email phone subject message = Except.ok (doc, db1)) :
    ContactOk doc := by
  obtain ⟨-, -, -, hst, hn, he, hp, hs, hm, hf⟩ := create_ok_inv h
  obtain ⟨r1, r2, r3, r4, r5⟩ := (failedPaths_eq_nil_iff _ _ _ _ _).mp hf
  rw [hn] at r1; rw [he] at r2; rw [hp] at r3; rw [hs] at r4; rw [hm] at r5
  refine ⟨?_, ?_, ?_, ?_, ?_, Or.inl hst⟩
  · exact fun h0 => ((required_iff _).mp r1).2 (by rw [h0])
  · exact fun h0 => ((required_iff _).mp r2).2 (by rw [h0])
  · exact fun h0 => ((required_iff _).mp r3).2 (by rw [h0])
  · exact fun h0 => ((required_iff _).mp r4).2 (by rw [h0])
  · exact fun h0 => ((required_iff _).mp r5).2 (by rw [h0])

/-- Every handler keeps the store invariant. -/
theorem storeOk_handle (env : ProcessEnv) (db : Store) (req : Request)
    (h : StoreOk db) : StoreOk (handle env db req).db := by
  cases req with
  | submit newId p1 p2 body =>
    show StoreOk (createContactHandler env newId p1 p2 db body).db
    rcases createContactHandler_db env newId p1 p2 db body with h1 | ⟨doc, hc, h1⟩
    · rw [h1]; exact h
    · rw [h1]
      intro c hc2
      rcases List.mem_append.mp hc2 with h2 | h2
      · exact h c h2
      · rw [List.mem_singleton.mp h2]; exact contactOk_of_create hc
  | update body =>
    show StoreOk (updateContactStatusHandler db body).db
    rcases updateContactStatusHandler_db db body with h1 | ⟨flt, h1⟩
    · rw [h1]; exact h
    · rw [h1]
      intro d hd
      obtain ⟨c, hc, -, h2 | h2⟩ := mem_findOneAndUpdate flt db d hd
      · rw [h2]; exact h c hc
      · rw [h2]; exact contactOk_setCompleted (h c hc)
  | delete body =>
    show StoreOk (deleteContactHandler db body).db
    rcases deleteContactHandler_db db body with h1 | ⟨flt, h1⟩
    · rw [h1]; exact h
    · rw [h1]
      exact fun c hc => h c ((findOneAndDelete_sublist flt db).subset hc)
  | list => exact h

/-- Every handler keeps the identifiers unique. -/
theorem uniqueIds_handle (env : ProcessEnv) (db : Store) (req : Request)
    (h : UniqueIds db) : UniqueIds (handle env db req).db := by
  cases req with
  | submit newId p1 p2 body =>
    show UniqueIds (createContactHandler env newId p1 p2 db body).db
    rcases createContactHandler_db env newId p1 p2 db body with h1 | ⟨doc, hc, h1⟩
    · rw [h1]; exact h
    · rw [h1]
      obtain ⟨-, hid, hfresh, -⟩ := create_ok_inv hc
      unfold UniqueIds ids at *
      rw [List.map_append, List.nodup_append]
      refine ⟨h, by simp, ?_⟩
      intro a ha hb
      simp only [List.map_cons, List.map_nil, List.mem_singleton] at hb
      rw [hb, hid] at ha
      exact hfresh ha
  | update body =>
    show UniqueIds (updateContactStatusHandler db body).db
    rcases updateContactStatusHandler_db db body with h1 | ⟨flt, h1⟩
    · rw [h1]; exact h
    · rw [h1]; unfold UniqueIds; rw [ids_findOneAndUpdate]; exact h
  | delete body =>
    show UniqueIds (deleteContactHandler db body).db
    rcases deleteContactHandler_db db body with h1 | ⟨flt, h1⟩
    · rw [h1]; exact h
    · rw [h1]
      exact List.Nodup.sublist ((findOneAndDelete_sublist flt db).map Contact.id) h
  | list => exact h

theorem uniqueIds_reachable (env : ProcessEnv) (db : Store)
    (h : Reachable env db) : UniqueIds db := by
  induction h with
  | empty => exact List.nodup_nil
  | step db req _ ih => exact uniqueIds_handle env db req ih

/-! ## Submission -/

/-- C1: for every collection and every submission whose five fields are all
non-empty, stored under an identifier new to the collection, the submit
handler followed by the admin listing renders a sequence that contains a
record with status "pending" and the submitted name, email, phone, subject
and message unchanged. -/
theorem submit_then_list_includes_pending (env : ProcessEnv) (newId : ObjectId)
    (p1 p2 : Settled) (db : Store) (body : ReqBody)
    (hv : ValidSubmission body) (hfresh : newId ∉ ids db) :
    ∃ cs c,
      (adminContactHandler (createContactHandler env newId p1 p2 db body).db).res
        = Response.render "contactAdmin" cs ∧
      c ∈ cs ∧ c.status = "pending" ∧ some c.name = body.name ∧
      some c.email = body.email ∧ some c.phone = body.phone ∧
      some c.subject = body.subject ∧ some c.message = body.message := by
  obtain ⟨doc, hc, -, hst, hn, he, hp, hs, hm⟩ := create_ok_of_valid newId db body hv hfresh
  refine ⟨db ++ [doc], doc, ?_, by simp, hst, hn, he, hp, hs, hm⟩
  rw [createContactHandler_ok env newId p1 p2 db body doc _ hc]
  rfl

theorem submit_then_list_includes_pending_witness :
    ∃ cs c,
      (adminContactHandler (createContactHandler {} 7 Settled.fulfilled Settled.fulfilled []
        { name := some "A", email := some "a@x.com", phone := some "123",
          subject := some "S", message := some "M" }).db).res
        = Response.render "contactAdmin" cs ∧
      c ∈ cs ∧ c.status = "pending" ∧ some c.name = some "A" ∧
      some c.email = some "a@x.com" ∧ some c.phone = some "123" ∧
      some c.subject = some "S" ∧ some c.message = some "M" :=
  submit_then_list_includes_pending {} 7 Settled.fulfilled Settled.fulfilled []
    { name := some "A", email := some "a@x.com", phone := some "123",
      subject := some "S", message := some "M" } (by decide) (by decide)

theorem not_valid_of_missingOrEmpty (body : ReqBody)
    (h : MissingOrEmpty body.name ∨ MissingOrEmpty body.email ∨ MissingOrEmpty body.phone ∨
      MissingOrEmpty body.subject ∨ MissingOrEmpty body.message) :
    ¬ ValidSubmission body := by
  have key : ∀ v : Option String, MissingOrEmpty v → ¬ NonEmptyField v := by
    intro v hv hne
    rcases hv with h0 | h0
    · exact hne.1 h0
    · exact hne.2 h0
  rintro ⟨h1, h2, h3, h4, h5⟩
  rcases h with h | h | h | h | h
  · exact key _ h h1
  · exact key _ h h2
  · exact key _ h h3
  · exact key _ h h4
  · exact key _ h h5

/-- C2: for every collection and every submission in which at least one of
name, email, phone, subject, message is missing or empty, the submit handler
responds with the text "Something went wrong" (not with the redirect), the
collection after the request equals the collection before it, and no
notification is attempted. -/
theorem submit_invalid_fails (env : ProcessEnv) (newId : ObjectId) (p1 p2 : Settled)
    (db : Store) (body : ReqBody)
    (h : MissingOrEmpty body.name ∨ MissingOrEmpty body.email ∨ MissingOrEmpty body.phone ∨
      MissingOrEmpty body.subject ∨ MissingOrEmpty body.message) :
    (createContactHandler env newId p1 p2 db body).res = Response.send "Something went wrong" ∧
    (createContactHandler env newId p1 p2 db body).res ≠ Response.redirect "/contact?success=true" ∧
    (createContactHandler env newId p1 p2 db body).db = db ∧
    (createContactHandler env newId p1 p2 db body).outbox = [] := by
  obtain ⟨err, he⟩ := create_error_of_invalid newId db body (not_valid_of_missingOrEmpty body h)
  rw [createContactHandler_error env newId p1 p2 db body err he]
  exact ⟨rfl, by simp, rfl, rfl⟩

theorem submit_invalid_fails_witness :
    (createContactHandler {} 7 Settled.fulfilled Settled.fulfilled []
      { name := some "A", email := some "a@x.com", phone := some "123",
        subject := some "S", message := some "" }).res = Response.send "Something went wrong" ∧
    (createContactHandler {} 7 Settled.fulfilled Settled.fulfilled []
      { name := some "A", email := some "a@x.com", phone := some "123",
        subject := some "S", message := some "" }).res ≠ Response.redirect "/contact?success=true" ∧
    (createContactHandler {} 7 Settled.fulfilled Settled.fulfilled []
      { name := some "A", email := some "a@x.com", phone := some "123",
        subject := some "S", message := some "" }).db = [] ∧
    (createContactHandler {} 7 Settled.fulfilled Settled.fulfilled []
      { name := some "A", email := some "a@x.com", phone := some "123",
        subject := some "S", message := some "" }).outbox = [] :=
  submit_invalid_fails {} 7 Settled.fulfilled Settled.fulfilled []
    { name := some "A", email := some "a@x.com", phone := some "123",
      subject := some "S", message := some "" } (by decide)

/-! ## Status update -/

/-- C3: for every collection with unique identifiers and every identifier of
a stored pending record, the update handler rewrites that record to the same
record with status "completed" (identifier and the five text fields kept),
leaves every other record as it is, and a second request with the same
identifier leaves the collection as the first one left it. -/
theorem update_pending_sets_only_status (db : Store) (body : ReqBody)
    (s : String) (i : ObjectId) (c : Contact)
    (hid : body.id = some s) (hcast : castObjectId s = some i) (hu : UniqueIds db)
    (hc : c ∈ db) (hci : c.id = i) (hp : c.status = "pending") :
    (updateContactStatusHandler db body).db =
      db.map (fun d => if d = c then
        { id := c.id, name := c.name, email := c.email, phone := c.phone,
          subject := c.subject, message := c.message, status := "completed" } else d) ∧
    (∀ d ∈ db, d ≠ c → d ∈ (updateContactStatusHandler db body).db) ∧
    (updateContactStatusHandler db body).db.length = db.length ∧
    (updateContactStatusHandler (updateContactStatusHandler db body).db body).db =
      (updateContactStatusHandler db body).db := by
  have hf : castFilter body.id = Except.ok (Filter.byId i) := by
    rw [hid]; exact castFilter_some_ok s i hcast
  have hmap : findOneAndUpdate (Filter.byId i) setCompleted db =
      db.map (fun d => if d = c then
        { id := c.id, name := c.name, email := c.email, phone := c.phone,
          subject := c.subject, message := c.message, status := "completed" } else d) := by
    rw [findOneAndUpdate_byId_eq_map i db hu]
    apply List.map_congr_left
    intro d hd
    by_cases hdc : d = c
    · subst hdc; simp [hci, setCompleted]
    · have : d.id ≠ i := fun h => hdc (eq_of_id_eq hu hd hc (by rw [h, hci]))
      simp [hdc, this]
  rw [updateContactStatusHandler_cast db body _ hf]
  rw [updateContactStatusHandler_cast _ body _ hf]
  refine ⟨hmap, ?_, findOneAndUpdate_length _ _ db, findOneAndUpdate_idem _ db⟩
  intro d hd hdc
  show d ∈ findOneAndUpdate (Filter.byId i) setCompleted db
  rw [hmap]
  exact List.mem_map.mpr ⟨d, hd, by simp [hdc]⟩

theorem update_pending_sets_only_status_witness :
    (updateContactStatusHandler
      [⟨1, "A", "a@x.com", "123", "S", "M", "pending"⟩,
       ⟨2, "B", "b@x.com", "456", "T", "N", "pending"⟩]
      { id := some "000000000000000000000001" }).db =
      [⟨1, "A", "a@x.com", "123", "S", "M", "completed"⟩,
       ⟨2, "B", "b@x.com", "456", "T", "N", "pending"⟩] :=
  (update_pending_sets_only_status
    [⟨1, "A", "a@x.com", "123", "S", "M", "pending"⟩,
     ⟨2, "B", "b@x.com", "456", "T", "N", "pending"⟩]
    { id := some "000000000000000000000001" } "000000000000000000000001" 1
    ⟨1, "A", "a@x.com", "123", "S", "M", "pending"⟩
    rfl (by decide) (by decide) (by decide) rfl rfl).1.trans (by decide)

/-! ## Deletion -/

/-- C4: for every collection with unique identifiers and every identifier of
a stored record, the delete handler removes that record and no other (the
number of records drops by one, every other record stays), the admin listing
afterwards does not contain it, and a second delete of the same identifier
leaves the collection unchanged. -/
theorem delete_removes_exactly_one (db : Store) (body : ReqBody)
    (s : String) (i : ObjectId) (c : Contact)
    (hid : body.id = some s) (hcast : castObjectId s = some i) (hu : UniqueIds db)
    (hc : c ∈ db) (hci : c.id = i) :
    (deleteContactHandler db body).db = db.filter (fun d => decide (d ≠ c)) ∧
    (deleteContactHandler db body).db.length + 1 = db.length ∧
    (∀ d ∈ db, d ≠ c → d ∈ (deleteContactHandler db body).db) ∧
    (∃ cs, (adminContactHandler (deleteContactHandler db body).db).res
        = Response.render "contactAdmin" cs ∧ c ∉ cs ∧ ∀ d ∈ cs, d.id ≠ i) ∧
    (deleteContactHandler (deleteContactHandler db body).db body).db =
      (deleteContactHandler db body).db := by
  have hf : castFilter body.id = Except.ok (Filter.byId i) := by
    rw [hid]; exact castFilter_some_ok s i hcast
  have hfil : findOneAndDelete (Filter.byId i) db = db.filter (fun d => decide (d ≠ c)) := by
    rw [findOneAndDelete_byId_eq_filter i db hu]
    apply List.filter_congr
    intro d hd
    by_cases hdc : d = c
    · subst hdc; simp [hci]
    · have : d.id ≠ i := fun h => hdc (eq_of_id_eq hu hd hc (by rw [h, hci]))
      simp [hdc, this]
  have hno : ∀ d ∈ findOneAndDelete (Filter.byId i) db, d.id ≠ i := by
    intro d hd
    rw [findOneAndDelete_byId_eq_filter i db hu] at hd
    simpa using (List.mem_filter.mp hd).2
  rw [deleteContactHandler_cast db body _ hf]
  rw [deleteContactHandler_cast _ body _ hf]
  refine ⟨hfil, findOneAndDelete_length _ db c hc ((matches_byId i c).mpr hci), ?_, ?_, ?_⟩
  · intro d hd hdc
    show d ∈ findOneAndDelete (Filter.byId i) db
    rw [hfil]
    exact List.mem_filter.mpr ⟨hd, by simp [hdc]⟩
  · exact ⟨findOneAndDelete (Filter.byId i) db, rfl, fun h => hno c h hci, hno⟩
  · show findOneAndDelete (Filter.byId i) (findOneAndDelete (Filter.byId i) db) = _
    apply findOneAndDelete_of_no_match
    intro d hd
    have := hno d hd
    simp [Filter.matches, this]

theorem delete_removes_exactly_one_witness :
    (deleteContactHandler
      [⟨1, "A", "a@x.com", "123", "S", "M", "pending"⟩,
       ⟨2, "B", "b@x.com", "456", "T", "N", "completed"⟩]
      { id := some "000000000000000000000002" }).db =
      [⟨1, "A", "a@x.com", "123", "S", "M", "pending"⟩] :=
  (delete_removes_exactly_one
    [⟨1, "A", "a@x.com", "123", "S", "M", "pending"⟩,
     ⟨2, "B", "b@x.com", "456", "T", "N", "completed"⟩]
    { id := some "000000000000000000000002" } "000000000000000000000002" 2
    ⟨2, "B", "b@x.com", "456", "T", "N", "completed"⟩
    rfl (by decide) (by decide) (by decide) rfl).1.trans (by decide)

/-! ## Identifiers that name no stored record -/

/-- C5, as stated, fails: on the empty collection the text "abc" names no
stored record, yet the update handler and the delete handler answer it with
the text "Something went wrong" and not with the redirect to
"/admin/contact". -/
theorem malformed_id_is_not_redirected :
    castObjectId "abc" = none ∧
    (updateContactStatusHandler [] { id := some "abc" }).res
      = Response.send "Something went wrong" ∧
    (updateContactStatusHandler [] { id := some "abc" }).res
      ≠ Response.redirect "/admin/contact" ∧
    (deleteContactHandler [] { id := some "abc" }).res
      = Response.send "Something went wrong" ∧
    (deleteContactHandler [] { id := some "abc" }).res
      ≠ Response.redirect "/admin/contact" := by
  decide

/-- C5, amended: for every collection and every id value that names no stored
record, be it missing from the body, a well-formed identifier that is not
stored, or a text that is not a well-formed identifier, the update handler
and the delete handler return an outcome (they do not throw) and leave the
collection unchanged; they respond with the redirect to "/admin/contact", the
response they give on every collection, also one where the identifier exists,
unless the id is a text that is not a well-formed identifier, in which case
they respond with the text "Something went wrong". -/
theorem absent_id_leaves_store_unchanged (db : Store) (body : ReqBody)
    (habsent : ∀ s i, body.id = some s → castObjectId s = some i → i ∉ ids db) :
    (updateContactStatusHandler db body).db = db ∧
    (deleteContactHandler db body).db = db ∧
    ((∀ s, body.id = some s → castObjectId s ≠ none) →
      (updateContactStatusHandler db body).res = Response.redirect "/admin/contact" ∧
      (deleteContactHandler db body).res = Response.redirect "/admin/contact" ∧
      ∀ db2 : Store,
        (updateContactStatusHandler db2 body).res = Response.redirect "/admin/contact" ∧
        (deleteContactHandler db2 body).res = Response.redirect "/admin/contact") ∧
    (∀ s, body.id = some s → castObjectId s = none →
      (updateContactStatusHandler db body).res = Response.send "Something went wrong" ∧
      (deleteContactHandler db body).res = Response.send "Something went wrong") := by
  cases hid : body.id with
  | none =>
    have hf : castFilter body.id = Except.ok Filter.nothing := by rw [hid]; rfl
    have hno : ∀ c ∈ db, Filter.nothing.matches c = false := fun _ _ => rfl
    rw [updateContactStatusHandler_cast db body _ hf, deleteContactHandler_cast db body _ hf]
    refine ⟨findOneAndUpdate_of_no_match _ _ db hno, findOneAndDelete_of_no_match _ db hno,
      ?_, ?_⟩
    · intro _
      refine ⟨rfl, rfl, fun db2 => ?_⟩
      rw [updateContactStatusHandler_cast db2 body _ hf,
        deleteContactHandler_cast db2 body _ hf]
      exact ⟨rfl, rfl⟩
    · intro s hs
      exact absurd hs (by simp)
  | some s =>
    cases hcast : castObjectId s with
    | none =>
      have hf : castFilter body.id = Except.error (StoreError.castError "_id" s) := by
        rw [hid]; exact castFilter_some_error s hcast
      rw [updateContactStatusHandler_error db body _ hf,
        deleteContactHandler_error db body _ hf]
      refine ⟨rfl, rfl, ?_, fun _ _ _ => ⟨rfl, rfl⟩⟩
      intro h
      exact absurd hcast (h s rfl)
    | some i =>
      have hf : castFilter body.id = Except.ok (Filter.byId i) := by
        rw [hid]; exact castFilter_some_ok s i hcast
      have hno : ∀ c ∈ db, (Filter.byId i).matches c = false := by
        intro c hc
        have h1 : c.id ≠ i := fun h =>
          habsent s i hid hcast (h ▸ List.mem_map_of_mem Contact.id hc)
        simp [Filter.matches, h1]
      rw [updateContactStatusHandler_cast db body _ hf,
        deleteContactHandler_cast db body _ hf]
      refine ⟨findOneAndUpdate_of_no_match _ _ db hno, findOneAndDelete_of_no_match _ db hno,
        ?_, ?_⟩
      · intro _
        refine ⟨rfl, rfl, fun db2 => ?_⟩
        rw [updateContactStatusHandler_cast db2 body _ hf,
          deleteContactHandler_cast db2 body _ hf]
        exact ⟨rfl, rfl⟩
      · intro s2 hs2 hc2
        have : s2 = s := by
          injection hs2 with h; exact h.symm
        rw [this, hcast] at hc2
        exact absurd hc2 (by simp)

theorem absent_id_leaves_store_unchanged_witness :
    ((updateContactStatusHandler [⟨1, "A", "a@x.com", "123", "S", "M", "pending"⟩] {}).db
      = [⟨1, "A", "a@x.com", "123", "S", "M", "pending"⟩] ∧
     (deleteContactHandler [⟨1, "A", "a@x.com", "123", "S", "M", "pending"⟩] {}).db
      = [⟨1, "A", "a@x.com", "123", "S", "M", "pending"⟩]) ∧
    ((updateContactStatusHandler [⟨1, "A", "a@x.com", "123", "S", "M", "pending"⟩] {}).res
      = Response.redirect "/admin/contact" ∧
     (deleteContactHandler [⟨1, "A", "a@x.com", "123", "S", "M", "pending"⟩] {}).res
      = Response.redirect "/admin/contact") :=
  have h := absent_id_leaves_store_unchanged
    [⟨1, "A", "a@x.com", "123", "S", "M", "pending"⟩] {}
    (fun _ _ hs => Option.noConfusion hs)
  have hr := h.2.2.1 (fun _ hs => Option.noConfusion hs)
  ⟨⟨h.1, h.2.1⟩, ⟨hr.1, hr.2.1⟩⟩

/-! ## Notifications -/

/-- C6: whenever a submission is persisted, the submit handler hands exactly
two messages to the transport, the first addressed to ADMIN_EMAIL and the
second to the submitted email, adds exactly one record (with status
"pending") at the end of the collection, and responds with the redirect to
"/contact?success=true". -/
theorem submit_persisted_two_attempts (env : ProcessEnv) (newId : ObjectId)
    (p1 p2 : Settled) (db : Store) (body : ReqBody) (doc : Contact) (db1 : Store)
    (h : Contact.create newId db body.name body.email body.phone body.subject body.message
      = Except.ok (doc, db1)) :
    (createContactHandler env newId p1 p2 db body).outbox.length = 2 ∧
    (createContactHandler env newId p1 p2 db body).outbox.map Mail.recipient
      = [env.ADMIN_EMAIL, body.email] ∧
    (createContactHandler env newId p1 p2 db body).db = db ++ [doc] ∧
    (createContactHandler env newId p1 p2 db body).db.length = db.length + 1 ∧
    doc.status = "pending" ∧
    (createContactHandler env newId p1 p2 db body).res
      = Response.redirect "/contact?success=true" := by
  obtain ⟨hdb, -, -, hst, -, he, -⟩ := create_ok_inv h
  rw [createContactHandler_ok env newId p1 p2 db body doc db1 h]
  subst hdb
  refine ⟨rfl, ?_, rfl, by simp, hst, rfl⟩
  simp [sendMail, he]

theorem submit_persisted_two_attempts_witness :
    (createContactHandler { ADMIN_EMAIL := some "admin@infyfix.test" } 7
      Settled.fulfilled Settled.fulfilled []
      { name := some "A", email := some "a@x.com", phone := some "123",
        subject := some "S", message := some "M" }).outbox.map Mail.recipient
      = [some "admin@infyfix.test", some "a@x.com"] ∧
    (createContactHandler { ADMIN_EMAIL := some "admin@infyfix.test" } 7
      Settled.fulfilled Settled.fulfilled []
      { name := some "A", email := some "a@x.com", phone := some "123",
        subject := some "S", message := some "M" }).db
      = [⟨7, "A", "a@x.com", "123", "S", "M", "pending"⟩] :=
  have h := submit_persisted_two_attempts { ADMIN_EMAIL := some "admin@infyfix.test" } 7
    Settled.fulfilled Settled.fulfilled []
    { name := some "A", email := some "a@x.com", phone := some "123",
      subject := some "S", message := some "M" }
    ⟨7, "A", "a@x.com", "123", "S", "M", "pending"⟩
    [⟨7, "A", "a@x.com", "123", "S", "M", "pending"⟩] rfl
  ⟨h.2.1, h.2.2.1⟩

/-- C7: for every valid submission stored under an identifier new to the
collection, and every two ways the two `sendMail` promises may settle, the
response and the resulting collection are the same: the response is the
redirect to "/contact?success=true" and the new record is in the collection;
only the set-aside promises differ. -/
theorem delivery_outcome_not_surfaced (env : ProcessEnv) (newId : ObjectId)
    (p1 p2 q1 q2 : Settled) (db : Store) (body : ReqBody)
    (hv : ValidSubmission body) (hfresh : newId ∉ ids db) :
    (createContactHandler env newId p1 p2 db body).res
      = (createContactHandler env newId q1 q2 db body).res ∧
    (createContactHandler env newId p1 p2 db body).db
      = (createContactHandler env newId q1 q2 db body).db ∧
    (createContactHandler env newId p1 p2 db body).res
      = Response.redirect "/contact?success=true" ∧
    (createContactHandler env newId p1 p2 db body).floating = [p1, p2] ∧
    (∃ c ∈ (createContactHandler env newId p1 p2 db body).db,
      c.id = newId ∧ c.status = "pending" ∧ some c.name = body.name ∧
      some c.email = body.email ∧ some c.phone = body.phone ∧
      some c.subject = body.subject ∧ some c.message = body.message) := by
  obtain ⟨doc, hc, hi, hst, hn, he, hp, hs, hm⟩ := create_ok_of_valid newId db body hv hfresh
  rw [createContactHandler_ok env newId p1 p2 db body doc _ hc,
    createContactHandler_ok env newId q1 q2 db body doc _ hc]
  exact ⟨rfl, rfl, rfl, rfl, doc, by simp, hi, hst, hn, he, hp, hs, hm⟩

theorem delivery_outcome_not_surfaced_witness :
    (createContactHandler {} 7 (Settled.rejected "ECONNREFUSED") (Settled.rejected "ECONNREFUSED")
      []
      { name := some "A", email := some "a@x.com", phone := some "123",
        subject := some "S", message := some "M" }).res
      = Response.redirect "/contact?success=true" :=
  (delivery_outcome_not_surfaced {} 7 (Settled.rejected "ECONNREFUSED")
    (Settled.rejected "ECONNREFUSED") Settled.fulfilled Settled.fulfilled
    []
    { name := some "A", email := some "a@x.com", phone := some "123",
      subject := some "S", message := some "M" } (by decide) (by decide)).2.2.1

/-- C10: whenever a submission is persisted as a record, the first message
has subject "New contact request: " followed by the stored subject and the
body "You have received a new contact from <strong>NAME</strong> with email
<strong>EMAIL</strong><br /> MESSAGE" with the stored name, email and message
inserted as they are, and the second message has the subject "Contact request
received successfully" and the body "Thank you for contacting us. We will get
back to you soon.", whatever was submitted; the stored values are the
submitted ones. -/
theorem notification_texts (env : ProcessEnv) (newId : ObjectId)
    (p1 p2 : Settled) (db : Store) (body : ReqBody) (doc : Contact) (db1 : Store)
    (h : Contact.create newId db body.name body.email body.phone body.subject body.message
      = Except.ok (doc, db1)) :
    (createContactHandler env newId p1 p2 db body).outbox.map (fun m => (m.subject, m.html)) =
      [("New contact request: " ++ doc.subject,
        "You have received a new contact from <strong>" ++ doc.name ++
          "</strong> with email <strong>" ++ doc.email ++ "</strong><br /> " ++ doc.message),
       ("Contact request received successfully",
        "Thank you for contacting us. We will get back to you soon.")] ∧
    doc ∈ (createContactHandler env newId p1 p2 db body).db ∧
    body.name = some doc.name ∧ body.email = some doc.email ∧
    body.subject = some doc.subject ∧ body.message = some doc.message := by
  obtain ⟨hdb, -, -, -, hn, he, -, hs, hm, -⟩ := create_ok_inv h
  rw [createContactHandler_ok env newId p1 p2 db body doc db1 h]
  subst hdb
  exact ⟨rfl, by simp, hn, he, hs, hm⟩

theorem notification_texts_witness :
    (createContactHandler {} 7 Settled.fulfilled Settled.fulfilled []
      { name := some "<b>A</b>", email := some "a@x.com", phone := some "123",
        subject := some "S", message := some "M & M" }).outbox.map (fun m => (m.subject, m.html)) =
      [("New contact request: S",
        "You have received a new contact from <strong><b>A</b></strong> with email <strong>a@x.com</strong><br /> M & M"),
       ("Contact request received successfully",
        "Thank you for contacting us. We will get back to you soon.")] :=
  (notification_texts {} 7 Settled.fulfilled Settled.fulfilled []
    { name := some "<b>A</b>", email := some "a@x.com", phone := some "123",
      subject := some "S", message := some "M & M" }
    ⟨7, "<b>A</b>", "a@x.com", "123", "S", "M & M", "pending"⟩
    [⟨7, "<b>A</b>", "a@x.com", "123", "S", "M & M", "pending"⟩] rfl).1.trans (by decide)

/-! ## Store invariant and status lifecycle -/

/-- Where a document of the collection after a request comes from: it was
there before, or it is a stored document with its status set by an update
request, or it is the document inserted by a submit request. -/
theorem mem_handle_db (env : ProcessEnv) (db : Store) (req : Request)
    (d : Contact) (hd : d ∈ (handle env db req).db) :
    d ∈ db ∨
    (∃ c ∈ db, d = setCompleted c ∧ ∃ body, req = Request.update body) ∨
    (d.id ∉ ids db ∧ d.status = "pending" ∧
      ∃ newId p1 p2 body, req = Request.submit newId p1 p2 body) := by
  cases req with
  | submit newId p1 p2 body =>
    change d ∈ (createContactHandler env newId p1 p2 db body).db at hd
    rcases createContactHandler_db env newId p1 p2 db body with h1 | ⟨doc, hc, h1⟩
    · rw [h1] at hd; exact Or.inl hd
    · rw [h1] at hd
      rcases List.mem_append.mp hd with h2 | h2
      · exact Or.inl h2
      · obtain ⟨-, hid, hfresh, hst, -⟩ := create_ok_inv hc
        rw [List.mem_singleton.mp h2]
        exact Or.inr (Or.inr ⟨by rw [hid]; exact hfresh, hst, newId, p1, p2, body, rfl⟩)
  | update body =>
    change d ∈ (updateContactStatusHandler db body).db at hd
    rcases updateContactStatusHandler_db db body with h1 | ⟨flt, h1⟩
    · rw [h1] at hd; exact Or.inl hd
    · rw [h1] at hd
      obtain ⟨c, hc, -, h2 | h2⟩ := mem_findOneAndUpdate flt db d hd
      · rw [h2]; exact Or.inl hc
      · exact Or.inr (Or.inl ⟨c, hc, h2, body, rfl⟩)
  | delete body =>
    change d ∈ (deleteContactHandler db body).db at hd
    rcases deleteContactHandler_db db body with h1 | ⟨flt, h1⟩
    · rw [h1] at hd; exact Or.inl hd
    · rw [h1] at hd
      exact Or.inl ((findOneAndDelete_sublist flt db).subset hd)
  | list => exact Or.inl hd

/-- C8: if every stored contact has its five text fields non-empty and a
status among "pending" and "completed", the same holds after any request to
the submit, update, delete or list handler, whatever the body; hence it holds
in every collection reachable from the empty one. -/
theorem store_invariant (env : ProcessEnv) :
    (∀ (db : Store) (req : Request), StoreOk db → StoreOk (handle env db req).db) ∧
    (∀ db : Store, Reachable env db → StoreOk db) := by
  refine ⟨fun db req h => storeOk_handle env db req h, ?_⟩
  intro db h
  induction h with
  | empty => exact fun c hc => absurd hc (List.not_mem_nil c)
  | step db req _ ih => exact storeOk_handle env db req ih

theorem store_invariant_witness :
    StoreOk (handle {} [⟨1, "A", "a@x.com", "123", "S", "M", "pending"⟩]
      (Request.update { id := some "000000000000000000000001" })).db ∧
    StoreOk (handle {} [] (Request.submit 7 Settled.fulfilled Settled.fulfilled
      { name := some "A", email := some "a@x.com", phone := some "123",
        subject := some "S", message := some "M", status := some "archived" })).db :=
  ⟨(store_invariant {}).1 [⟨1, "A", "a@x.com", "123", "S", "M", "pending"⟩]
      (Request.update { id := some "000000000000000000000001" }) (by decide),
   (store_invariant {}).2 _
      (Reachable.step [] (Request.submit 7 Settled.fulfilled Settled.fulfilled
        { name := some "A", email := some "a@x.com", phone := some "123",
          subject := some "S", message := some "M", status := some "archived" })
        Reachable.empty)⟩

/-- C9: in a collection with unique identifiers, for every request: a record
that is new after the request comes from a submit request and has status
"pending", whatever the body contains; a record stored before the request and
still stored after it is unchanged, unless the request is an update and the
record is the old one with status "completed"; so the submit, delete and list
handlers change no status, and a record that was "completed" is still
"completed". -/
theorem status_lifecycle (env : ProcessEnv) (db : Store) (req : Request)
    (hu : UniqueIds db) :
    (∀ d ∈ (handle env db req).db, d.id ∉ ids db →
      d.status = "pending" ∧ ∃ newId p1 p2 body, req = Request.submit newId p1 p2 body) ∧
    (∀ c ∈ db, ∀ d ∈ (handle env db req).db, d.id = c.id →
      d = c ∨ ((∃ body, req = Request.update body) ∧
        d = { id := c.id, name := c.name, email := c.email, phone := c.phone,
              subject := c.subject, message := c.message, status := "completed" })) ∧
    (∀ c ∈ db, ∀ d ∈ (handle env db req).db, d.id = c.id →
      (∀ body, req ≠ Request.update body) → d.status = c.status) ∧
    (∀ c ∈ db, ∀ d ∈ (handle env db req).db, d.id = c.id →
      c.status = "completed" → d.status = "completed") := by
  have key : ∀ c ∈ db, ∀ d ∈ (handle env db req).db, d.id = c.id →
      d = c ∨ ((∃ body, req = Request.update body) ∧ d = setCompleted c) := by
    intro c hc d hd hdc
    rcases mem_handle_db env db req d hd with h | ⟨c0, hc0, h1, hb⟩ | ⟨hnew, -, -⟩
    · exact Or.inl (eq_of_id_eq hu h hc hdc)
    · have : c0 = c := eq_of_id_eq hu hc0 hc (by rw [← hdc, h1]; rfl)
      subst this
      exact Or.inr ⟨hb, h1⟩
    · exact absurd (hdc ▸ List.mem_map_of_mem Contact.id hc) hnew
  refine ⟨?_, key, ?_, ?_⟩
  · intro d hd hnew
    rcases mem_handle_db env db req d hd with h | ⟨c0, hc0, h1, -⟩ | ⟨-, hst, hreq⟩
    · exact absurd (List.mem_map_of_mem Contact.id h) hnew
    · exact absurd (by rw [h1]; exact (List.mem_map_of_mem Contact.id hc0 : c0.id ∈ ids db)) hnew
    · exact ⟨hst, hreq⟩
  · intro c hc d hd hdc hnot
    rcases key c hc d hd hdc with h | ⟨⟨body, hb⟩, -⟩
    · rw [h]
    · exact absurd hb (hnot body)
  · intro c hc d hd hdc hst
    rcases key c hc d hd hdc with h | ⟨-, h⟩
    · rw [h]; exact hst
    · rw [h]; rfl

theorem status_lifecycle_witness :
    UniqueIds [⟨1, "A", "a@x.com", "123", "S", "M", "completed"⟩] ∧
    (⟨7, "B", "b@x.com", "456", "T", "N", "pending"⟩ : Contact) ∈
      (handle {} [⟨1, "A", "a@x.com", "123", "S", "M", "completed"⟩]
        (Request.submit 7 Settled.fulfilled Settled.fulfilled
          { name := some "B", email := some "b@x.com", phone := some "456",
            subject := some "T", message := some "N", status := some "completed" })).db ∧
    (⟨7, "B", "b@x.com", "456", "T", "N", "pending"⟩ : Contact).status = "pending" ∧
    ((⟨1, "A", "a@x.com", "123", "S", "M", "completed"⟩ : Contact) ∈
      (handle {} [⟨1, "A", "a@x.com", "123", "S", "M", "completed"⟩]
        (Request.submit 7 Settled.fulfilled Settled.fulfilled
          { name := some "B", email := some "b@x.com", phone := some "456",
            subject := some "T", message := some "N", status := some "completed" })).db) :=
  ⟨by decide, by decide,
   ((status_lifecycle {} [⟨1, "A", "a@x.com", "123", "S", "M", "completed"⟩]
      (Request.submit 7 Settled.fulfilled Settled.fulfilled
        { name := some "B", email := some "b@x.com", phone := some "456",
          subject := some "T", message := some "N", status := some "completed" })
      (by decide)).1 ⟨7, "B", "b@x.com", "456", "T", "N", "pending"⟩
      (by decide) (by decide)).1,
   by decide⟩

end Infyfix
